import Mathlib

/-!
Shallow embedding of the audio-ata-organizer meeting-recording front-end.

The model covers the four source files of the repository:

* `src/components/profile/ProfileSettings.tsx` — avatar upload, profile
  load and profile save (namespace `ProfileSettings`);
* `src/components/recording/RecordingControls.tsx` — audio-context setup
  and teardown, speech-onset handling (namespace `RecordingControls`), and
  the `RecordingMain` component bundled in the same file (namespace
  `RecordingMain`);
* `src/hooks/useTranscriptionHandler.ts` — the transcription pipeline
  (namespace `TranscriptionHandler`);
* `src/services/transcriptionAnalysisService.ts` — the analysis service
  (namespace `AnalysisService`).

Each TypeScript handler is embedded as a total Lean function from an
explicit environment (the outcomes of its external calls: storage uploads,
table upserts, HTTP fetches, media-device requests) to the list of
observable effects it performs, in order.  A `try`-block body is embedded
as a function into `Except String` (the thrown `Error`, carrying its
message string); the surrounding `catch` is the `match` that turns the
exception into logged/toasted effects, so a handler whose Lean embedding
returns a plain effect list indeed never propagates an exception.
JavaScript numbers that only pass through the code unexamined (HTTP status
codes, confidence scores) are modelled as `Nat`.
-/

deriving instance DecidableEq for Except

/-- ASCII whitespace, the relevant part of what JavaScript
`String.prototype.trim` removes. -/
def isJsWhitespace (c : Char) : Bool :=
  c = ' ' || c = '\t' || c = '\n' || c = '\r'

/-- JavaScript `s.trim()`, modelled over the string's character list so
that it evaluates inside the kernel. -/
def jsTrim (s : String) : String :=
  String.mk (((s.data.dropWhile isJsWhitespace).reverse.dropWhile isJsWhitespace).reverse)

/-- JavaScript `s.includes('*')`. -/
def includesStar (s : String) : Bool :=
  s.data.any (fun c => c = '*')

/-- JavaScript `name.split('.').pop()`: the suffix after the last dot
(the whole string when there is no dot). -/
def fileExtOf (name : String) : String :=
  String.mk ((name.data.reverse.takeWhile (fun c => c ≠ '.')).reverse)

/-- A toast notification as produced by the `useToast` hook: title,
description, and whether the `destructive` variant was requested. -/
structure Toast where
  title : String
  description : String
  destructive : Bool
  deriving DecidableEq, Repr

/-- The selectable transcription backend (`'openai' | 'google'`). -/
inductive Service where
  | openai
  | google
  deriving DecidableEq, Repr

/-- One speaker-attributed span of transcribed text
(`src/types/transcription`, as used by the code in `src/`). -/
structure TranscriptionSegment where
  timestamp : String
  speaker : String
  text : String
  triggers : List String
  deriving DecidableEq, Repr

/-- The `MeetingMinutes` document, with the fields exhibited by the
initial value built in `RecordingMain` (lines 217–238). -/
structure MeetingMinutes where
  id : String
  date : String
  startTime : String
  endTime : String
  location : String
  meetingTitle : String
  organizer : String
  participants : List String
  agendaItems : List String
  actionItems : List String
  summary : String
  nextSteps : List String
  author : String
  meetingType : String
  confidentialityLevel : String
  legalReferences : List String
  version : Nat
  status : String
  lastModified : String
  tags : List String
  deriving DecidableEq, Repr

/-- The row written to the `meeting_minutes` table by the upsert in
`useTranscriptionHandler.ts` lines 97–112: exactly the columns named in
that payload. -/
structure MinutesRow where
  id : String
  user_id : Option String
  date : String
  start_time : String
  end_time : String
  location : String
  meeting_title : String
  organizer : String
  summary : String
  author : String
  meeting_type : String
  confidentiality_level : String
  version : Nat
  status : String
  deriving DecidableEq, Repr

/-- The upsert payload of `useTranscriptionHandler.ts` lines 97–112:
`meeting_title` falls back to `'Nova Reunião'` when `minutes.meetingTitle`
is falsy (the empty string), all other columns copy the corresponding
`MeetingMinutes` field; `user_id` is the id of the authenticated user. -/
def minutesUpsertRow (m : MeetingMinutes) (userId : Option String) : MinutesRow :=
  { id := m.id
    user_id := userId
    date := m.date
    start_time := m.startTime
    end_time := m.endTime
    location := m.location
    meeting_title := if m.meetingTitle = "" then "Nova Reunião" else m.meetingTitle
    organizer := m.organizer
    summary := m.summary
    author := m.author
    meeting_type := m.meetingType
    confidentiality_level := m.confidentialityLevel
    version := m.version
    status := m.status }

namespace ProfileSettings

/-- The avatar `File` chosen in the file input; only its name is read
(for the extension). -/
structure AvatarFile where
  name : String
  deriving DecidableEq, Repr

/-- The row written to the `profiles` table by `handleSubmit`
(lines 127–138).  `avatar_url = none` means the key was `undefined` and
hence omitted from the write. -/
structure ProfileRow where
  id : String
  name : String
  phone : String
  company : String
  role : String
  bio : String
  avatar_url : Option String
  updated_at : String
  deriving DecidableEq, Repr

/-- Observable effects of the profile component. -/
inductive PEvent where
  | storageUpload (bucket : String) (path : String)
  | profilesUpsert (row : ProfileRow)
  | profilesSelect (userId : String)
  | profilesInsert (userId : String)
  | toastShown (t : Toast)
  | consoleError (msg : String)
  | setLoading (b : Bool)
  deriving DecidableEq, Repr

/-- Environment of `handleSubmit`/`uploadAvatar`: the current form state
and the outcomes of the external calls. -/
structure ProfileEnv where
  userId : Option String
  name : String
  phone : String
  company : String
  role : String
  bio : String
  avatar : Option AvatarFile
  uploadFails : Bool
  uploadErrMsg : String
  publicUrl : String
  upsertFails : Bool
  upsertErrMsg : String
  nowIso : String
  deriving DecidableEq, Repr

/-- JavaScript `x || undefined`: a falsy value (here `null` or the empty
string) becomes `undefined`, i.e. the key is omitted. -/
def jsOrUndefined (v : Option String) : Option String :=
  match v with
  | some u => if u = "" then none else some u
  | none => none

/-- `uploadAvatar` (ProfileSettings.tsx lines 33–55): `null` when no file
was chosen; otherwise upload to the `avatars` bucket at
`userId + "/profile." + ext`; its own catch logs the error to the console
and returns `null` — no toast. -/
def uploadAvatar (env : ProfileEnv) (userId : String) : List PEvent × Option String :=
  match env.avatar with
  | none => ([], none)
  | some av =>
    let fileExt := fileExtOf av.name
    let filePath := userId ++ "/profile." ++ fileExt
    if env.uploadFails then
      ([PEvent.storageUpload "avatars" filePath,
        PEvent.consoleError ("Error uploading avatar: " ++ env.uploadErrMsg)], none)
    else
      ([PEvent.storageUpload "avatars" filePath], some env.publicUrl)

/-- `handleSubmit` (ProfileSettings.tsx lines 119–156): nothing happens
without a logged-in user; otherwise upload the avatar (if any), upsert the
profile row keyed by the user id (`avatar_url: avatarUrl || undefined`),
toast success or a destructive error, and clear the loading flag in
`finally`.  The catch shows a toast only — it does not log. -/
def handleSubmit (env : ProfileEnv) : List PEvent :=
  match env.userId with
  | none => []
  | some uid =>
    let up := uploadAvatar env uid
    let row : ProfileRow :=
      { id := uid
        name := env.name
        phone := env.phone
        company := env.company
        role := env.role
        bio := env.bio
        avatar_url := jsOrUndefined up.2
        updated_at := env.nowIso }
    [PEvent.setLoading true] ++ up.1 ++ [PEvent.profilesUpsert row] ++
    (if env.upsertFails then
       [PEvent.toastShown
          { title := "Erro ao atualizar perfil"
            description := env.upsertErrMsg
            destructive := true }]
     else
       [PEvent.toastShown
          { title := "Perfil atualizado!"
            description := "Suas informações foram atualizadas com sucesso."
            destructive := false }]) ++
    [PEvent.setLoading false]

/-- The stored profile row as read back by `loadProfile`. -/
structure StoredProfile where
  name : Option String
  phone : Option String
  company : Option String
  role : Option String
  bio : Option String
  avatar_url : Option String
  deriving DecidableEq, Repr

/-- Environment of `loadProfile`: outcomes of the select and of the
insert performed when no profile exists yet. -/
structure LoadEnv where
  userId : Option String
  fetchFails : Bool
  fetchErrMsg : String
  existing : Option StoredProfile
  createFails : Bool
  createErrMsg : String
  deriving DecidableEq, Repr

/-- `createProfile` (lines 57–72): insert a fresh row keyed by the user
id; on error log and rethrow. -/
def createProfile (env : LoadEnv) (uid : String) : List PEvent × Except String Unit :=
  if env.createFails then
    ([PEvent.profilesInsert uid,
      PEvent.consoleError ("Error creating profile: " ++ env.createErrMsg)],
     Except.error env.createErrMsg)
  else
    ([PEvent.profilesInsert uid], Except.ok ())

/-- `loadProfile` (lines 74–117): select the profile; a fetch error is
logged and rethrown; a missing profile triggers `createProfile`; the outer
catch logs and shows a destructive toast. -/
def loadProfile (env : LoadEnv) : List PEvent :=
  match env.userId with
  | none => []
  | some uid =>
    let body : List PEvent × Except String Unit :=
      if env.fetchFails then
        ([PEvent.profilesSelect uid,
          PEvent.consoleError ("Error fetching profile: " ++ env.fetchErrMsg)],
         Except.error env.fetchErrMsg)
      else
        match env.existing with
        | none =>
          let cr := createProfile env uid
          (PEvent.profilesSelect uid :: cr.1, cr.2)
        | some _ => ([PEvent.profilesSelect uid], Except.ok ())
    match body with
    | (evs, Except.ok _) => evs
    | (evs, Except.error m) =>
      evs ++ [PEvent.consoleError ("Error in loadProfile: " ++ m),
              PEvent.toastShown
                { title := "Erro ao carregar perfil"
                  description := m
                  destructive := true }]

/-- Is this event the profile-table upsert? -/
def isProfilesUpsert : PEvent → Bool
  | PEvent.profilesUpsert _ => true
  | _ => false

/-- Is this event a storage upload? -/
def isStorageUpload : PEvent → Bool
  | PEvent.storageUpload _ _ => true
  | _ => false

/-- Is this event a toast? -/
def isProfileToast : PEvent → Bool
  | PEvent.toastShown _ => true
  | _ => false

/-- Is this event a console log of an error? -/
def isProfileConsoleError : PEvent → Bool
  | PEvent.consoleError _ => true
  | _ => false

end ProfileSettings

namespace RecordingControls

/-- The component's React state and refs (RecordingControls.tsx lines
40–44): the audio context, the microphone and system analysers, and the
`audioDataRef` buffer ref, which is initialised to `null`.  Resources are
named by numeric ids. -/
structure RCState where
  audioContext : Option Nat
  analyser : Option Nat
  systemAnalyser : Option Nat
  audioDataRef : Option Nat
  deriving DecidableEq, Repr

/-- The browser-side resource world: a fresh-id counter, the media
streams acquired and not yet stopped (`liveStreams`), and the open/closed
audio contexts. -/
structure RCWorld where
  nextId : Nat
  liveStreams : List Nat
  openContexts : List Nat
  closedContexts : List Nat
  deriving DecidableEq, Repr

/-- Observable effects of the recording-controls component. -/
inductive REvent where
  | getUserMedia (ok : Bool)
  | getDisplayMedia (ok : Bool)
  | contextClosed (c : Nat)
  | consoleError (msg : String)
  | consoleLog (msg : String)
  | toastShown (t : Toast)
  | identifySpeaker (ts : Nat)
  | speechCallback (ts : Nat) (speaker : String)
  deriving DecidableEq, Repr

/-- Environment of `setupAudioContext`: the `window.systemAudioEnabled`
flag and whether the two media-device requests succeed. -/
structure SetupEnv where
  systemAudioEnabled : Bool
  micOk : Bool
  displayOk : Bool
  deriving DecidableEq, Repr

/-- `setupAudioContext` (RecordingControls.tsx lines 57–95).  A fresh
`AudioContext` is created first; if `getUserMedia` rejects, the outer
catch only logs (`console.error`) — no toast, and the context just
created is neither stored nor closed.  On success the mic analyser is
wired and stored; when `window.systemAudioEnabled` is set,
`getDisplayMedia` is attempted under an inner try whose catch only
`console.log`s, leaving the microphone path intact. -/
def setupAudioContext (env : SetupEnv) (s : RCState) (w : RCWorld) :
    RCState × RCWorld × List REvent :=
  let ctx := w.nextId
  let w1 : RCWorld :=
    { w with nextId := w.nextId + 1, openContexts := ctx :: w.openContexts }
  if !env.micOk then
    (s, w1, [REvent.getUserMedia false,
             REvent.consoleError "Erro ao configurar contexto de áudio"])
  else
    let mic := w1.nextId
    let w2 : RCWorld :=
      { w1 with nextId := w1.nextId + 1, liveStreams := mic :: w1.liveStreams }
    let s1 : RCState := { s with audioContext := some ctx, analyser := some mic }
    if env.systemAudioEnabled then
      if env.displayOk then
        let sys := w2.nextId
        let w3 : RCWorld :=
          { w2 with nextId := w2.nextId + 1, liveStreams := sys :: w2.liveStreams }
        ({ s1 with systemAnalyser := some sys }, w3,
         [REvent.getUserMedia true, REvent.getDisplayMedia true])
      else
        (s1, w2, [REvent.getUserMedia true, REvent.getDisplayMedia false,
                  REvent.consoleLog "System audio not available"])
    else
      (s1, w2, [REvent.getUserMedia true])

/-- `cleanupAudioContext` (lines 97–104): close the stored audio context
(if any) and null it, clear both analyser refs.  No media-stream track is
ever stopped, and `audioDataRef` is not touched. -/
def cleanupAudioContext (s : RCState) (w : RCWorld) :
    RCState × RCWorld × List REvent :=
  match s.audioContext with
  | some c =>
    ({ s with audioContext := none, analyser := none, systemAnalyser := none },
     { w with openContexts := w.openContexts.erase c,
              closedContexts := c :: w.closedContexts },
     [REvent.contextClosed c])
  | none =>
    ({ s with analyser := none, systemAnalyser := none }, w, [])

/-- The effect of lines 47–55: set up while recording and not paused,
clean up otherwise (and on unmount). -/
def recordingEffect (isRecording isPaused : Bool) (env : SetupEnv)
    (s : RCState) (w : RCWorld) : RCState × RCWorld × List REvent :=
  if isRecording && !isPaused then setupAudioContext env s w
  else cleanupAudioContext s w

/-- `handleSpeechDetected` (lines 119–129): guard
`if (!audioDataRef.current || !analyser) return;` then read analyser data
into the buffer, identify the speaker via the voice identification
service (an external function, passed as `identify`), and invoke
`onSpeechDetected`. -/
def handleSpeechDetected (identify : Nat → String) (s : RCState) (ts : Nat) :
    List REvent :=
  match s.audioDataRef, s.analyser with
  | some _, some _ =>
    [REvent.identifySpeaker ts, REvent.speechCallback ts (identify ts)]
  | _, _ => []

/-- Initial component state: all refs null (lines 40–44). -/
def initState : RCState :=
  { audioContext := none, analyser := none, systemAnalyser := none,
    audioDataRef := none }

/-- Initial resource world: nothing acquired. -/
def initWorld : RCWorld :=
  { nextId := 0, liveStreams := [], openContexts := [], closedContexts := [] }

/-- States reachable by the component: the initial render, any firing of
the recording effect (setup or cleanup according to the flags), and the
effect's teardown on unmount. -/
inductive Reach : RCState → RCWorld → Prop where
  | init : Reach initState initWorld
  | step (isRecording isPaused : Bool) (env : SetupEnv) (s : RCState) (w : RCWorld) :
      Reach s w →
      Reach (recordingEffect isRecording isPaused env s w).1
            (recordingEffect isRecording isPaused env s w).2.1
  | teardown (s : RCState) (w : RCWorld) :
      Reach s w → Reach (cleanupAudioContext s w).1 (cleanupAudioContext s w).2.1

/-- Is this event a toast? -/
def isRCToast : REvent → Bool
  | REvent.toastShown _ => true
  | _ => false

/-- Is this event a `getUserMedia` request? -/
def isGetUserMedia : REvent → Bool
  | REvent.getUserMedia _ => true
  | _ => false

/-- Is this event a `getDisplayMedia` request? -/
def isGetDisplayMedia : REvent → Bool
  | REvent.getDisplayMedia _ => true
  | _ => false

end RecordingControls

namespace RecordingMain

/-- Observable effects of `handleStartRecording` (RecordingMain,
lines 288–299 of the file). -/
inductive MEvent where
  | toastShown (t : Toast)
  | startRecording (identificationEnabled : Bool)
  deriving DecidableEq, Repr

/-- The "configure an API key first" destructive toast (lines 291–295). -/
def configNeededToast (service : Service) : Toast :=
  { title := "Configuração Necessária"
    description := "Por favor, configure uma chave de API válida para " ++
      (match service with
       | Service.openai => "OpenAI"
       | Service.google => "Google Cloud") ++
      " nas configurações antes de iniciar a gravação."
    destructive := true }

/-- The guard of `handleStartRecording`:
`!apiKey || apiKey.trim() === ''` on the value read from `localStorage`
(where `getItem` returns `null` when the key is absent). -/
def keyMissingOrBlank : Option String → Bool
  | none => true
  | some k => k = "" || jsTrim k = ""

/-- `handleStartRecording` (lines 288–299): read the stored API key for
the selected service; if absent or blank, show the destructive toast and
return; otherwise call `startRecording(identificationEnabled)`. -/
def handleStartRecording (service : Service) (storedApiKey : Option String)
    (identificationEnabled : Bool) : List MEvent :=
  if keyMissingOrBlank storedApiKey then
    [MEvent.toastShown (configNeededToast service)]
  else
    [MEvent.startRecording identificationEnabled]

/-- Is this event a `startRecording` call? -/
def isStartRecording : MEvent → Bool
  | MEvent.startRecording _ => true
  | _ => false

end RecordingMain

namespace AnalysisService

/-- The `AnalysisResult` interface
(transcriptionAnalysisService.ts lines 5–23).  Sentiment entries are
(speaker, sentiment, confidence, context); key moments are
(timestamp, description, importance); engagement topics are
(topic, engagement).  The numeric scores pass through unexamined and are
modelled as `Nat`. -/
structure AnalysisResult where
  summary : String
  sentimentAnalysis : List (String × String × Nat × String)
  keyMoments : List (String × String × String)
  concerns : List String
  engagementTopics : List (String × Nat)
  deriving DecidableEq, Repr

/-- Observable effects of `analyzeTranscription`. -/
inductive AEvent where
  | historyInsert (meetingId : String) (text : String) (status : String)
      (audioPath : String)
  | analysisFetch (transcriptionId : Nat) (text : String)
  | consoleError (msg : String)
  deriving DecidableEq, Repr

/-- Environment of `analyzeTranscription`: outcome of the
`transcription_history` insert (`insertFails` also covers a null record),
the id of the saved record, and the `/api/analyze-transcription` response
(`fetchOk`, whether `response.json()` throws, and the parsed body). -/
structure AnalysisEnv where
  insertFails : Bool
  recordId : Nat
  fetchOk : Bool
  jsonFails : Bool
  jsonErrMsg : String
  result : AnalysisResult
  deriving DecidableEq, Repr

/-- `segments.map(s => s.speaker + ": " + s.text).join('\n')`
(line 32). -/
def transcriptionTextOf (segments : List TranscriptionSegment) : String :=
  String.intercalate "\n" (segments.map (fun s => s.speaker ++ ": " ++ s.text))

/-- The body of `analyzeTranscription`'s try block (lines 30–72):
throw when no audio path was provided; insert the history row and
`return null` when that insert fails or yields no record; call the
analysis endpoint and throw on a non-ok response; return the parsed
result. -/
def analyzeTranscriptionBody (env : AnalysisEnv)
    (segments : List TranscriptionSegment) (minutes : MinutesRow)
    (audioPath : Option String) :
    List AEvent × Except String (Option AnalysisResult) :=
  let text := transcriptionTextOf segments
  match audioPath with
  | none =>
    ([AEvent.consoleError "No audio path provided for transcription analysis"],
     Except.error "Audio path is required for transcription analysis")
  | some ap =>
    let ins := AEvent.historyInsert minutes.id text "processing" ap
    if env.insertFails then
      ([ins, AEvent.consoleError "Error saving transcription"], Except.ok none)
    else
      let f := AEvent.analysisFetch env.recordId text
      if !env.fetchOk then
        ([ins, f], Except.error "Failed to analyze transcription")
      else if env.jsonFails then
        ([ins, f], Except.error env.jsonErrMsg)
      else
        ([ins, f], Except.ok (some env.result))

/-- `analyzeTranscription` (lines 25–77): the try body with its catch,
which logs the error and returns `null`.  The function is total: every
internal exception is converted to `none`. -/
def analyzeTranscription (env : AnalysisEnv)
    (segments : List TranscriptionSegment) (minutes : MinutesRow)
    (audioPath : Option String) : List AEvent × Option AnalysisResult :=
  match analyzeTranscriptionBody env segments minutes audioPath with
  | (evs, Except.ok r) => (evs, r)
  | (evs, Except.error m) =>
    (evs ++ [AEvent.consoleError ("Error in transcription analysis: " ++ m)],
     none)

end AnalysisService

namespace TranscriptionHandler

open AnalysisService

/-- Observable effects of `handleTranscription`. -/
inductive TEvent where
  | storageUpload (bucket : String) (file : String)
  | googleTranscribe
  | openaiFetch
  | minutesUpsert (row : MinutesRow)
  | analyzeCall (row : MinutesRow) (audioPath : String)
  | minutesUpdate (row : MinutesRow)
  | toastShown (t : Toast)
  | setSegments (segs : List TranscriptionSegment)
  | setIsTranscribing (b : Bool)
  | consoleError (msg : String)
  deriving DecidableEq, Repr

/-- Environment of `handleTranscription`: the hook's props (API key,
service, optional minutes, whether an `onMinutesUpdate` callback was
passed), the wall clock (`timestamp`), and the outcomes of each external
call. -/
structure TEnv where
  apiKey : String
  service : Service
  minutes : Option MeetingMinutes
  hasOnMinutesUpdate : Bool
  timestamp : Nat
  uploadFails : Bool
  uploadedPath : String
  googleResult : Except String (List TranscriptionSegment)
  openaiOk : Bool
  openaiStatus : Nat
  openaiErrMsg : Option String
  processResult : Except String (List TranscriptionSegment)
  authUserId : Option String
  minutesUpsertFails : Bool
  analysisEnv : AnalysisEnv
  deriving Repr

/-- `transcriptionService.toUpperCase()`. -/
def serviceUpper : Service → String
  | Service.openai => "OPENAI"
  | Service.google => "GOOGLE"

/-- The API-key validation guard (lines 36–37): empty, blank, one of the
two placeholder values, or containing a `*`. -/
def invalidApiKey (k : String) : Bool :=
  k = "" || jsTrim k = "" || k = "your_openai_api_key_here" ||
  k = "your_google_api_key_here" || includesStar k

/-- The message thrown by the validation guard (line 38). -/
def keyErrorMsg (service : Service) : String :=
  "Por favor, configure uma chave válida da API " ++ serviceUpper service ++
  " no arquivo .env antes de tentar transcrever."

/-- Lines 44–55: upload the blob as `audio_<timestamp>.wav` to the
`meeting_recordings` bucket; an upload error throws
`'Failed to upload audio file'`; success yields `uploadData.path`. -/
def uploadStep (env : TEnv) : List TEvent × Except String String :=
  let fileName := "audio_" ++ toString env.timestamp ++ ".wav"
  if env.uploadFails then
    ([TEvent.storageUpload "meeting_recordings" fileName],
     Except.error "Failed to upload audio file")
  else
    ([TEvent.storageUpload "meeting_recordings" fileName],
     Except.ok env.uploadedPath)

/-- Lines 57–89: Google path calls `transcribeWithGoogleCloud` (an
external service, outcome in the environment); OpenAI path posts to the
transcriptions endpoint, logs and throws on a non-ok response (special
message for 401), and otherwise runs `processTranscriptionResult`. -/
def transcribeStep (env : TEnv) : List TEvent × Except String (List TranscriptionSegment) :=
  match env.service with
  | Service.google => ([TEvent.googleTranscribe], env.googleResult)
  | Service.openai =>
    if !env.openaiOk then
      if env.openaiStatus = 401 then
        ([TEvent.openaiFetch, TEvent.consoleError "Erro na resposta da OpenAI"],
         Except.error "Chave da API OpenAI inválida. Por favor, verifique se você configurou uma chave válida no arquivo .env")
      else
        ([TEvent.openaiFetch, TEvent.consoleError "Erro na resposta da OpenAI"],
         Except.error ("Erro na API OpenAI: " ++ toString env.openaiStatus ++
           " - " ++ env.openaiErrMsg.getD "Erro desconhecido"))
    else
      ([TEvent.openaiFetch], env.processResult)

/-- Lines 91–139: when segments are non-empty and minutes are present,
upsert the meeting-minutes row (an error logs and throws
`'Failed to save meeting minutes'`), run `analyzeTranscription` on the
saved row, and when it yields a result, build
`{...savedMinutes, summary: analysis.summary}`, pass it to
`onMinutesUpdate` when that callback exists, and toast the analysis
success. -/
def saveAnalyzeStep (env : TEnv) (segs : List TranscriptionSegment)
    (audioPath : String) : List TEvent × Except String Unit :=
  if segs.isEmpty then ([], Except.ok ())
  else
    match env.minutes with
    | none => ([], Except.ok ())
    | some m =>
      let row := minutesUpsertRow m env.authUserId
      if env.minutesUpsertFails then
        ([TEvent.minutesUpsert row, TEvent.consoleError "Error saving meeting minutes"],
         Except.error "Failed to save meeting minutes")
      else
        let saved := row
        let analysis := (analyzeTranscription env.analysisEnv segs saved (some audioPath)).2
        let base := [TEvent.minutesUpsert row, TEvent.analyzeCall saved audioPath]
        match analysis with
        | none => (base, Except.ok ())
        | some a =>
          let updated : MinutesRow := { saved with summary := a.summary }
          (base ++
           (if env.hasOnMinutesUpdate then [TEvent.minutesUpdate updated] else []) ++
           [TEvent.toastShown
              { title := "Análise concluída"
                description := "O resumo da reunião foi gerado com sucesso."
                destructive := false }],
           Except.ok ())

/-- The success toast of lines 143–146. -/
def transcriptionDoneToast : Toast :=
  { title := "Transcrição concluída"
    description := "A transcrição foi processada e salva com sucesso."
    destructive := false }

/-- The destructive toast of the catch block (lines 155–159), carrying
the thrown error's message. -/
def transcriptionErrorToast (m : String) : Toast :=
  { title := "Erro na transcrição", description := m, destructive := true }

/-- The body of `handleTranscription`'s try block (lines 35–146):
validate the key, upload, transcribe, save-and-analyze, then set the
segments state and toast success.  The `Except` value is the exception
propagating out of the body, carrying its message. -/
def tryBody (env : TEnv) : List TEvent × Except String (List TranscriptionSegment) :=
  if invalidApiKey env.apiKey then
    ([], Except.error (keyErrorMsg env.service))
  else
    let u := uploadStep env
    match u.2 with
    | Except.error m => (u.1, Except.error m)
    | Except.ok path =>
      let t := transcribeStep env
      match t.2 with
      | Except.error m => (u.1 ++ t.1, Except.error m)
      | Except.ok segs =>
        let sa := saveAnalyzeStep env segs path
        match sa.2 with
        | Except.error m => (u.1 ++ t.1 ++ sa.1, Except.error m)
        | Except.ok _ =>
          (u.1 ++ t.1 ++ sa.1 ++
           [TEvent.setSegments segs, TEvent.toastShown transcriptionDoneToast],
           Except.ok segs)

/-- `handleTranscription` (lines 31–162): set `isTranscribing` on entry,
run the try body, let the catch log the error and toast destructively,
and reset `isTranscribing` in `finally`. -/
def handleTranscription (env : TEnv) : List TEvent :=
  match tryBody env with
  | (evs, Except.ok _) =>
    [TEvent.setIsTranscribing true] ++ evs ++ [TEvent.setIsTranscribing false]
  | (evs, Except.error m) =>
    [TEvent.setIsTranscribing true] ++ evs ++
    [TEvent.consoleError ("Erro na transcrição: " ++ m),
     TEvent.toastShown (transcriptionErrorToast m)] ++
    [TEvent.setIsTranscribing false]

/-- The external-call kinds whose ordering claim C6 is about. -/
inductive CKind where
  | upload
  | transcribe
  | upsert
  | analyze
  | update
  deriving DecidableEq, Repr

/-- The call kind of an event, when it is one of the five pipeline
steps. -/
def ckind : TEvent → Option CKind
  | TEvent.storageUpload _ _ => some CKind.upload
  | TEvent.googleTranscribe => some CKind.transcribe
  | TEvent.openaiFetch => some CKind.transcribe
  | TEvent.minutesUpsert _ => some CKind.upsert
  | TEvent.analyzeCall _ _ => some CKind.analyze
  | TEvent.minutesUpdate _ => some CKind.update
  | _ => none

/-- The pipeline-step projection of a trace. -/
def ckinds (tr : List TEvent) : List CKind := tr.filterMap ckind

/-- The canonical pipeline order of claim C6. -/
def pipelineOrder : List CKind :=
  [CKind.upload, CKind.transcribe, CKind.upsert, CKind.analyze, CKind.update]

end TranscriptionHandler

/-! Concrete fixtures used to instantiate the theorems below. -/

/-- A concrete meeting-minutes document, shaped like the initial value
built in `RecordingMain` (lines 217–238). -/
def sampleMinutes : MeetingMinutes :=
  { id := "m1"
    date := "01/01/2025"
    startTime := "10:00:00"
    endTime := ""
    location := "Virtual - Gravação de Áudio"
    meetingTitle := ""
    organizer := ""
    participants := []
    agendaItems := []
    actionItems := []
    summary := ""
    nextSteps := []
    author := "Sistema de Transcrição"
    meetingType := "initial"
    confidentialityLevel := "internal"
    legalReferences := []
    version := 1
    status := "draft"
    lastModified := "2025-01-01T00:00:00.000Z"
    tags := [] }

/-- `sampleMinutes` with a participant added — and no other change. -/
def sampleMinutesB : MeetingMinutes := { sampleMinutes with participants := ["Alice"] }

/-- A concrete transcription segment. -/
def sampleSegment : TranscriptionSegment :=
  { timestamp := "00:00", speaker := "Participante 1", text := "Olá", triggers := [] }

/-- A concrete analysis result. -/
def sampleAnalysis : AnalysisService.AnalysisResult :=
  { summary := "Resumo gerado"
    sentimentAnalysis := []
    keyMoments := []
    concerns := []
    engagementTopics := [] }

/-- An analysis environment in which every external call succeeds. -/
def sampleAnalysisEnv : AnalysisService.AnalysisEnv :=
  { insertFails := false
    recordId := 7
    fetchOk := true
    jsonFails := false
    jsonErrMsg := ""
    result := sampleAnalysis }

/-- A transcription environment in which every external call succeeds,
with minutes present and an `onMinutesUpdate` callback installed. -/
def happyTEnv : TranscriptionHandler.TEnv :=
  { apiKey := "sk-valid-key"
    service := Service.google
    minutes := some sampleMinutes
    hasOnMinutesUpdate := true
    timestamp := 1700000000000
    uploadFails := false
    uploadedPath := "audio_1700000000000.wav"
    googleResult := Except.ok [sampleSegment]
    openaiOk := true
    openaiStatus := 200
    openaiErrMsg := none
    processResult := Except.ok [sampleSegment]
    authUserId := some "user-1"
    minutesUpsertFails := false
    analysisEnv := sampleAnalysisEnv }

/-- `happyTEnv` with a failing storage upload. -/
def failTEnv : TranscriptionHandler.TEnv := { happyTEnv with uploadFails := true }

/-- A profile environment: logged-in user, no avatar chosen, all calls
succeed. -/
def profileEnv0 : ProfileSettings.ProfileEnv :=
  { userId := some "user-1"
    name := "Ana"
    phone := "11999999999"
    company := "Acme"
    role := "Advogada"
    bio := "Oi"
    avatar := none
    uploadFails := false
    uploadErrMsg := ""
    publicUrl := "https://cdn.example/avatars/user-1/profile.png"
    upsertFails := false
    upsertErrMsg := "falhou"
    nowIso := "2025-01-01T00:00:00.000Z" }

/-- `profileEnv0` with a failing profile upsert. -/
def profileEnvUpsertFail : ProfileSettings.ProfileEnv :=
  { profileEnv0 with upsertFails := true }

/-- `profileEnv0` with an avatar chosen whose upload fails. -/
def profileEnvAvatarFail : ProfileSettings.ProfileEnv :=
  { profileEnv0 with avatar := some { name := "a.png" }, uploadFails := true }

/-- A profile-load environment whose select fails. -/
def loadEnvFail : ProfileSettings.LoadEnv :=
  { userId := some "user-1"
    fetchFails := true
    fetchErrMsg := "boom"
    existing := none
    createFails := false
    createErrMsg := "" }

/-- A setup environment in which the microphone request is denied. -/
def micFailEnv : RecordingControls.SetupEnv :=
  { systemAudioEnabled := false, micOk := false, displayOk := false }

/-- A setup environment: microphone granted, system audio disabled. -/
def micOnlyEnv : RecordingControls.SetupEnv :=
  { systemAudioEnabled := false, micOk := true, displayOk := true }

/-- A setup environment: system audio enabled but the display request
fails. -/
def displayFailEnv : RecordingControls.SetupEnv :=
  { systemAudioEnabled := true, micOk := true, displayOk := false }

/-- The state and world after one successful microphone-only setup from
the initial state: context 0 open, stream 1 live. -/
def afterSetup : RecordingControls.RCState × RecordingControls.RCWorld × List RecordingControls.REvent :=
  RecordingControls.setupAudioContext micOnlyEnv RecordingControls.initState
    RecordingControls.initWorld

/-! Theorems. -/

open ProfileSettings RecordingControls RecordingMain AnalysisService TranscriptionHandler

/-- Claim C2 counterexample: two meeting-minutes documents that differ in
their participants — and nowhere else — are persisted as the very same
row by the upsert of `useTranscriptionHandler.ts` lines 97–112, so the
persisted record cannot contain every field of the document: it is a
proper subset. -/
theorem C2_counterexample :
    minutesUpsertRow sampleMinutes (some "user-1") =
      minutesUpsertRow sampleMinutesB (some "user-1") ∧
    sampleMinutes.participants ≠ sampleMinutesB.participants := by
  constructor
  · rfl
  · decide

/-- Claim C2 (amended): the upsert payload carries exactly the scalar
header fields of the document — id, date, start/end time, location,
meeting title (defaulted to `'Nova Reunião'` when empty), organizer,
summary, author, meeting type, confidentiality level, version, status —
plus the authenticated user's id; it is invariant under any change to
participants, agenda items, action items, next steps, legal references,
lastModified, and tags, which are therefore not persisted. -/
theorem C2_amended_scalar_subset (m : MeetingMinutes) (userId : Option String) :
    ((minutesUpsertRow m userId).id = m.id ∧
     (minutesUpsertRow m userId).user_id = userId ∧
     (minutesUpsertRow m userId).date = m.date ∧
     (minutesUpsertRow m userId).start_time = m.startTime ∧
     (minutesUpsertRow m userId).end_time = m.endTime ∧
     (minutesUpsertRow m userId).location = m.location ∧
     (minutesUpsertRow m userId).meeting_title =
       (if m.meetingTitle = "" then "Nova Reunião" else m.meetingTitle) ∧
     (minutesUpsertRow m userId).organizer = m.organizer ∧
     (minutesUpsertRow m userId).summary = m.summary ∧
     (minutesUpsertRow m userId).author = m.author ∧
     (minutesUpsertRow m userId).meeting_type = m.meetingType ∧
     (minutesUpsertRow m userId).confidentiality_level = m.confidentialityLevel ∧
     (minutesUpsertRow m userId).version = m.version ∧
     (minutesUpsertRow m userId).status = m.status) ∧
    (∀ ps ag ac ns lr lm tg,
      minutesUpsertRow
        { m with participants := ps, agendaItems := ag, actionItems := ac,
                 nextSteps := ns, legalReferences := lr, lastModified := lm,
                 tags := tg } userId =
      minutesUpsertRow m userId) :=
  ⟨⟨rfl, rfl, rfl, rfl, rfl, rfl, rfl, rfl, rfl, rfl, rfl, rfl, rfl, rfl⟩,
   fun _ _ _ _ _ _ _ => rfl⟩

/-- Claim C9: `handleStartRecording` never starts recording without a
stored, non-blank API key: when the key is absent or blank it shows a
destructive toast and performs no `startRecording` call; otherwise its
whole effect is exactly one `startRecording` call carrying the
identification-enabled flag. -/
theorem C9_start_requires_key (service : Service) (storedApiKey : Option String)
    (identificationEnabled : Bool) :
    (keyMissingOrBlank storedApiKey = true →
       ((∃ t, MEvent.toastShown t ∈
           handleStartRecording service storedApiKey identificationEnabled ∧
           t.destructive = true) ∧
        (handleStartRecording service storedApiKey identificationEnabled).filter
          isStartRecording = [])) ∧
    (keyMissingOrBlank storedApiKey = false →
       handleStartRecording service storedApiKey identificationEnabled =
         [MEvent.startRecording identificationEnabled]) := by
  constructor
  · intro h
    refine ⟨⟨configNeededToast service, ?_, rfl⟩, ?_⟩
    · simp [handleStartRecording, h]
    · simp [handleStartRecording, h, isStartRecording, List.filter]
  · intro h
    simp [handleStartRecording, h]

/-- Claim C9 witness: with no stored key a destructive toast is shown and
nothing starts; with the key `"sk-abc"` recording starts with the flag. -/
theorem C9_start_requires_key_witness :
    ((∃ t, MEvent.toastShown t ∈ handleStartRecording Service.openai none false ∧
        t.destructive = true) ∧
     (handleStartRecording Service.openai none false).filter isStartRecording = []) ∧
    handleStartRecording Service.google (some "sk-abc") true =
      [MEvent.startRecording true] :=
  ⟨(C9_start_requires_key Service.openai none false).1 (by decide),
   (C9_start_requires_key Service.google (some "sk-abc") true).2 (by decide)⟩

/-- Claim C10: `analyzeTranscription` is total over its error cases —
whenever its try-block body throws, the catch converts the exception to
`null`, so no exception reaches the caller; in particular the result is
`null` when no audio path was provided, when saving the history record
fails, and when the analysis endpoint responds non-ok. -/
theorem C10_analysis_total (env : AnalysisEnv) (segments : List TranscriptionSegment)
    (minutes : MinutesRow) (audioPath : Option String) :
    (∀ m, (analyzeTranscriptionBody env segments minutes audioPath).2 = Except.error m →
       (analyzeTranscription env segments minutes audioPath).2 = none) ∧
    (audioPath = none → (analyzeTranscription env segments minutes audioPath).2 = none) ∧
    (env.insertFails = true → (analyzeTranscription env segments minutes audioPath).2 = none) ∧
    (env.fetchOk = false → (analyzeTranscription env segments minutes audioPath).2 = none) := by
  unfold analyzeTranscription analyzeTranscriptionBody
  rcases audioPath with _ | ap
  · simp
  · cases hIns : env.insertFails <;> cases hF : env.fetchOk <;>
      cases hJ : env.jsonFails <;> simp [hIns, hF, hJ]

/-- Claim C10 witness: at concrete inputs, a non-ok analysis response and
a missing audio path each yield `none` rather than an exception. -/
theorem C10_analysis_total_witness :
    (analyzeTranscription { sampleAnalysisEnv with fetchOk := false } [sampleSegment]
       (minutesUpsertRow sampleMinutes (some "user-1")) (some "audio.wav")).2 = none ∧
    (analyzeTranscription sampleAnalysisEnv [sampleSegment]
       (minutesUpsertRow sampleMinutes (some "user-1")) none).2 = none :=
  ⟨(C10_analysis_total { sampleAnalysisEnv with fetchOk := false } [sampleSegment]
      (minutesUpsertRow sampleMinutes (some "user-1")) (some "audio.wav")).2.2.2 rfl,
   (C10_analysis_total sampleAnalysisEnv [sampleSegment]
      (minutesUpsertRow sampleMinutes (some "user-1")) none).2.1 rfl⟩

/-- Claim C4 counterexample: after a successful microphone-only setup
from the initial state, the acquired microphone stream (id 1) is live;
the effect teardown closes the audio context and nulls the refs but the
stream is still live afterwards — the media stream is not released,
contradicting "every acquired audio resource is released". -/
theorem C4_counterexample :
    afterSetup.2.1.liveStreams = [1] ∧
    (cleanupAudioContext afterSetup.1 afterSetup.2.1).1.audioContext = none ∧
    (cleanupAudioContext afterSetup.1 afterSetup.2.1).1.analyser = none ∧
    (cleanupAudioContext afterSetup.1 afterSetup.2.1).2.1.liveStreams = [1] := by
  decide

/-- Claim C4 (amended): teardown nulls the audio context and clears both
analyser references, and when a context was stored it is closed; but the
acquired media streams are left untouched — the set of live streams is
unchanged, so they are not released. -/
theorem C4_amended_cleanup (s : RCState) (w : RCWorld) :
    (cleanupAudioContext s w).1.audioContext = none ∧
    (cleanupAudioContext s w).1.analyser = none ∧
    (cleanupAudioContext s w).1.systemAnalyser = none ∧
    (∀ c, s.audioContext = some c →
       REvent.contextClosed c ∈ (cleanupAudioContext s w).2.2 ∧
       c ∈ (cleanupAudioContext s w).2.1.closedContexts) ∧
    (cleanupAudioContext s w).2.1.liveStreams = w.liveStreams := by
  unfold cleanupAudioContext
  rcases hA : s.audioContext with _ | c <;> simp [hA]

/-- Claim C4 witness: the amended teardown facts at the concrete
post-setup state, with the stored context 0 closed. -/
theorem C4_amended_cleanup_witness :
    (cleanupAudioContext afterSetup.1 afterSetup.2.1).1.audioContext = none ∧
    REvent.contextClosed 0 ∈ (cleanupAudioContext afterSetup.1 afterSetup.2.1).2.2 :=
  ⟨(C4_amended_cleanup afterSetup.1 afterSetup.2.1).1,
   ((C4_amended_cleanup afterSetup.1 afterSetup.2.1).2.2.2.1 0 (by decide)).1⟩

/-- Claim C8: display audio is requested only when the system-audio flag
is on, and a display-stream failure is contained by the inner catch: the
audio context and the microphone analyser end up set regardless. -/
theorem C8_display_failure_contained (env : SetupEnv) (s : RCState) (w : RCWorld) :
    (env.systemAudioEnabled = false →
       ∀ b, REvent.getDisplayMedia b ∉ (setupAudioContext env s w).2.2) ∧
    (env.micOk = true → env.displayOk = false →
       (setupAudioContext env s w).1.audioContext = some w.nextId ∧
       (setupAudioContext env s w).1.analyser = some (w.nextId + 1) ∧
       (setupAudioContext env s w).1.systemAnalyser = s.systemAnalyser) := by
  unfold setupAudioContext
  cases hM : env.micOk <;> cases hS : env.systemAudioEnabled <;>
    cases hD : env.displayOk <;> simp [hM, hS, hD]

/-- Claim C8 witness: with system audio off no display request is made,
and with the display request failing the microphone path (context 0,
analyser 1) is still set up. -/
theorem C8_display_failure_contained_witness :
    (∀ b, REvent.getDisplayMedia b ∉ (setupAudioContext micOnlyEnv initState initWorld).2.2) ∧
    (setupAudioContext displayFailEnv initState initWorld).1.audioContext = some 0 ∧
    (setupAudioContext displayFailEnv initState initWorld).1.analyser = some 1 := by
  refine ⟨(C8_display_failure_contained micOnlyEnv initState initWorld).1 rfl, ?_, ?_⟩
  · exact ((C8_display_failure_contained displayFailEnv initState initWorld).2 rfl rfl).1
  · exact ((C8_display_failure_contained displayFailEnv initState initWorld).2 rfl rfl).2.1

/-- `setupAudioContext` never writes the `audioDataRef` ref. -/
theorem setupPreservesAudioDataRef (env : SetupEnv) (s : RCState) (w : RCWorld) :
    (setupAudioContext env s w).1.audioDataRef = s.audioDataRef := by
  unfold setupAudioContext
  cases hM : env.micOk <;> cases hS : env.systemAudioEnabled <;>
    cases hD : env.displayOk <;> simp [hM, hS, hD]

/-- `cleanupAudioContext` never writes the `audioDataRef` ref. -/
theorem cleanupPreservesAudioDataRef (s : RCState) (w : RCWorld) :
    (cleanupAudioContext s w).1.audioDataRef = s.audioDataRef := by
  unfold cleanupAudioContext
  rcases h : s.audioContext with _ | c <;> simp [h]

/-- Claim C3: in every reachable state of the recording-controls
component `audioDataRef` is still `null` — the ref initialised at line 44
is never assigned anywhere — so `handleSpeechDetected` always returns at
its guard: no speaker identification is performed and `onSpeechDetected`
is never invoked, for any timestamp and any identification service. -/
theorem C3_speech_detection_dead (s : RCState) (w : RCWorld) (h : Reach s w) :
    s.audioDataRef = none ∧
    ∀ identify ts, handleSpeechDetected identify s ts = [] := by
  have key : s.audioDataRef = none := by
    induction h with
    | init => rfl
    | step ir ip env s' w' _ ih =>
      unfold recordingEffect
      split
      · rw [setupPreservesAudioDataRef]; exact ih
      · rw [cleanupPreservesAudioDataRef]; exact ih
    | teardown s' w' _ ih =>
      rw [cleanupPreservesAudioDataRef]; exact ih
  refine ⟨key, fun identify ts => ?_⟩
  unfold handleSpeechDetected
  rcases hA : s.analyser with _ | a <;> simp [key, hA]

/-- Claim C3 witness: at the initial (reachable) state, a speech onset at
timestamp 5 produces no identification call and no callback. -/
theorem C3_speech_detection_dead_witness :
    initState.audioDataRef = none ∧
    handleSpeechDetected (fun _ => "Desconhecido") initState 5 = [] :=
  ⟨(C3_speech_detection_dead initState initWorld Reach.init).1,
   (C3_speech_detection_dead initState initWorld Reach.init).2 (fun _ => "Desconhecido") 5⟩

/-- Claim C7: submitting the profile form with a logged-in user performs
exactly one `profiles` upsert, keyed by the user's id, whose name, phone,
company, role and bio equal the form values; when no avatar file was
chosen the `avatar_url` key is omitted (`none`), leaving the stored URL
unchanged; without a logged-in user nothing at all happens. -/
theorem C7_profile_submit (env : ProfileEnv) :
    (env.userId = none → handleSubmit env = []) ∧
    (∀ uid, env.userId = some uid →
       ((handleSubmit env).filter isProfilesUpsert).length = 1 ∧
       (∀ r, PEvent.profilesUpsert r ∈ handleSubmit env →
          r.id = uid ∧ r.name = env.name ∧ r.phone = env.phone ∧
          r.company = env.company ∧ r.role = env.role ∧ r.bio = env.bio ∧
          (env.avatar = none → r.avatar_url = none))) := by
  constructor
  · intro h
    simp [handleSubmit, h]
  · intro uid h
    rcases hA : env.avatar with _ | av
    · cases hUF : env.upsertFails <;>
        simp [handleSubmit, uploadAvatar, jsOrUndefined, h, hA, hUF,
              isProfilesUpsert, List.filter]
    · cases hUp : env.uploadFails <;> cases hUF : env.upsertFails <;>
        simp [handleSubmit, uploadAvatar, jsOrUndefined, h, hA, hUp, hUF,
              isProfilesUpsert, List.filter]

/-- `ckinds` distributes over append. -/
theorem ckindsAppend (a b : List TEvent) : ckinds (a ++ b) = ckinds a ++ ckinds b := by
  simp [ckinds]

/-- The upload step emits no `setSegments` event. -/
theorem uploadStepNoSetSegments (env : TEnv) :
    ∀ x, TEvent.setSegments x ∉ (uploadStep env).1 := by
  intro x
  unfold uploadStep
  cases h : env.uploadFails <;> simp [h]

/-- The transcribe step emits no `setSegments` event. -/
theorem transcribeStepNoSetSegments (env : TEnv) :
    ∀ x, TEvent.setSegments x ∉ (transcribeStep env).1 := by
  intro x
  unfold transcribeStep
  rcases hS : env.service with _ | _
  · by_cases h401 : env.openaiStatus = 401 <;> cases hOk : env.openaiOk <;>
      simp [hS, hOk, h401]
  · simp [hS]

/-- The save-and-analyze step emits no `setSegments` event. -/
theorem saveAnalyzeStepNoSetSegments (env : TEnv) (segs : List TranscriptionSegment)
    (path : String) : ∀ x, TEvent.setSegments x ∉ (saveAnalyzeStep env segs path).1 := by
  intro x
  unfold saveAnalyzeStep
  cases hE : segs.isEmpty
  · rcases hM : env.minutes with _ | m
    · simp [hE, hM]
    · cases hUF : env.minutesUpsertFails
      · rcases hAn : (analyzeTranscription env.analysisEnv segs
            (minutesUpsertRow m env.authUserId) (some path)).2 with _ | a
        · simp [hE, hM, hUF, hAn]
        · cases hCb : env.hasOnMinutesUpdate <;> simp [hE, hM, hUF, hAn, hCb]
      · simp [hE, hM, hUF]
  · simp [hE]

/-- The pipeline-kind projection of the upload step is `[upload]`. -/
theorem ckindsUploadStep (env : TEnv) : ckinds (uploadStep env).1 = [CKind.upload] := by
  unfold uploadStep
  cases h : env.uploadFails <;> simp [h, ckinds, ckind]

/-- The pipeline-kind projection of the transcribe step is
`[transcribe]`. -/
theorem ckindsTranscribeStep (env : TEnv) :
    ckinds (transcribeStep env).1 = [CKind.transcribe] := by
  unfold transcribeStep
  rcases hS : env.service with _ | _
  · by_cases h401 : env.openaiStatus = 401 <;> cases hOk : env.openaiOk <;>
      simp [hS, hOk, h401, ckinds, ckind]
  · simp [hS, ckinds, ckind]

/-- The pipeline-kind projection of the save-and-analyze step is a
prefix of `[upsert, analyze, update]`, and it contains `upsert` only when
the segments are non-empty and minutes are present. -/
theorem ckindsSaveAnalyzeStep (env : TEnv) (segs : List TranscriptionSegment)
    (path : String) :
    (∃ rest, ckinds (saveAnalyzeStep env segs path).1 ++ rest =
       [CKind.upsert, CKind.analyze, CKind.update]) ∧
    (CKind.upsert ∈ ckinds (saveAnalyzeStep env segs path).1 →
       segs ≠ [] ∧ env.minutes.isSome = true) := by
  unfold saveAnalyzeStep
  cases hE : segs.isEmpty
  · have hne : segs ≠ [] := by
      intro hnil
      rw [hnil] at hE
      simp at hE
    rcases hM : env.minutes with _ | m
    · simp [hE, hM, ckinds, ckind]
    · cases hUF : env.minutesUpsertFails
      · rcases hAn : (analyzeTranscription env.analysisEnv segs
            (minutesUpsertRow m env.authUserId) (some path)).2 with _ | a
        · refine ⟨⟨[CKind.update], ?_⟩, fun _ => ⟨hne, by simp [hM]⟩⟩
          simp [hE, hM, hUF, hAn, ckinds, ckind]
        · cases hCb : env.hasOnMinutesUpdate
          · refine ⟨⟨[CKind.update], ?_⟩, fun _ => ⟨hne, by simp [hM]⟩⟩
            simp [hE, hM, hUF, hAn, hCb, ckinds, ckind]
          · refine ⟨⟨[], ?_⟩, fun _ => ⟨hne, by simp [hM]⟩⟩
            simp [hE, hM, hUF, hAn, hCb, ckinds, ckind]
      · refine ⟨⟨[CKind.analyze, CKind.update], ?_⟩, fun _ => ⟨hne, by simp [hM]⟩⟩
        simp [hE, hM, hUF, ckinds, ckind]
  · simp [hE, ckinds, ckind]

/-- When the try body succeeds, its trace contains the `setSegments`
event for the returned segments and the success toast. -/
theorem tryBodyOkMem (env : TEnv) (evs : List TEvent) (segs : List TranscriptionSegment)
    (h : tryBody env = (evs, Except.ok segs)) :
    TEvent.setSegments segs ∈ evs ∧ TEvent.toastShown transcriptionDoneToast ∈ evs := by
  unfold tryBody at h
  by_cases hK : invalidApiKey env.apiKey = true
  · simp [hK] at h
  · rcases hU : (uploadStep env).2 with mU | path
    · simp [hK, hU] at h
    · rcases hT2 : (transcribeStep env).2 with mT | segs2
      · simp [hK, hU, hT2] at h
      · rcases hSa : (saveAnalyzeStep env segs2 path).2 with mS | u
        · simp [hK, hU, hT2, hSa] at h
        · simp [hK, hU, hT2, hSa] at h
          obtain ⟨he, hs⟩ := h
          subst hs
          rw [← he]
          simp

/-- When the try body throws, its trace contains no `setSegments`
event. -/
theorem tryBodyErrorNoSetSegments (env : TEnv) (evs : List TEvent) (m : String)
    (h : tryBody env = (evs, Except.error m)) :
    ∀ x, TEvent.setSegments x ∉ evs := by
  intro x
  unfold tryBody at h
  by_cases hK : invalidApiKey env.apiKey = true
  · simp [hK] at h
    obtain ⟨h1, -⟩ := h
    subst h1
    simp
  · rcases hU : (uploadStep env).2 with mU | path
    · simp [hK, hU] at h
      obtain ⟨h1, -⟩ := h
      subst h1
      exact uploadStepNoSetSegments env x
    · rcases hT2 : (transcribeStep env).2 with mT | segs2
      · simp [hK, hU, hT2] at h
        obtain ⟨h1, -⟩ := h
        subst h1
        simp [uploadStepNoSetSegments env x, transcribeStepNoSetSegments env x]
      · rcases hSa : (saveAnalyzeStep env segs2 path).2 with mS | u
        · simp [hK, hU, hT2, hSa] at h
          obtain ⟨h1, -⟩ := h
          subst h1
          simp [uploadStepNoSetSegments env x, transcribeStepNoSetSegments env x,
                saveAnalyzeStepNoSetSegments env segs2 path x]
        · simp [hK, hU, hT2, hSa] at h

/-- The success tail of the try body (the `setSegments` event and the
success toast) carries no pipeline kind. -/
theorem ckindsOkTail (segs : List TranscriptionSegment) (t : Toast) :
    ckinds [TEvent.setSegments segs, TEvent.toastShown t] = [] := by
  simp [ckinds, ckind]

/-- The pipeline-kind projection of the try body's trace is a prefix of
the canonical pipeline order. -/
theorem tryBodyCkinds (env : TEnv) :
    ∃ rest, ckinds (tryBody env).1 ++ rest = pipelineOrder := by
  by_cases hK : invalidApiKey env.apiKey = true
  · exact ⟨pipelineOrder, by simp [tryBody, hK, ckinds]⟩
  · rcases hU : (uploadStep env).2 with mU | path
    · refine ⟨[CKind.transcribe, CKind.upsert, CKind.analyze, CKind.update], ?_⟩
      simp [tryBody, hK, hU, ckindsUploadStep, pipelineOrder]
    · rcases hT2 : (transcribeStep env).2 with mT | segs
      · refine ⟨[CKind.upsert, CKind.analyze, CKind.update], ?_⟩
        simp [tryBody, hK, hU, hT2, ckindsAppend, ckindsUploadStep,
              ckindsTranscribeStep, pipelineOrder]
      · obtain ⟨r3, h3⟩ := (ckindsSaveAnalyzeStep env segs path).1
        refine ⟨r3, ?_⟩
        rcases hSa : (saveAnalyzeStep env segs path).2 with mS | u <;>
          simp [tryBody, hK, hU, hT2, hSa, ckindsAppend, ckindsUploadStep,
                ckindsTranscribeStep, ckindsOkTail, pipelineOrder, h3]

/-- When the try body's trace performs the minutes upsert, the segments
returned by the transcribe step are non-empty and minutes are present. -/
theorem tryBodyUpsertGuard (env : TEnv)
    (h : CKind.upsert ∈ ckinds (tryBody env).1) :
    env.minutes.isSome = true ∧
    ∃ segs, (transcribeStep env).2 = Except.ok segs ∧ segs ≠ [] := by
  by_cases hK : invalidApiKey env.apiKey = true
  · simp [tryBody, hK, ckinds] at h
  · rcases hU : (uploadStep env).2 with mU | path
    · simp [tryBody, hK, hU, ckindsUploadStep] at h
    · rcases hT2 : (transcribeStep env).2 with mT | segs
      · simp [tryBody, hK, hU, hT2, ckindsAppend, ckindsUploadStep,
              ckindsTranscribeStep] at h
      · have htr : ckinds (tryBody env).1 =
            CKind.upload :: CKind.transcribe ::
              ckinds (saveAnalyzeStep env segs path).1 := by
          rcases hSa : (saveAnalyzeStep env segs path).2 with mS | u <;>
            simp [tryBody, hK, hU, hT2, hSa, ckindsAppend, ckindsUploadStep,
                  ckindsTranscribeStep, ckindsOkTail]
        rw [htr] at h
        simp at h
        obtain ⟨hne, hMs⟩ := (ckindsSaveAnalyzeStep env segs path).2 h
        exact ⟨hMs, segs, rfl, hne⟩

/-- The handler's wrapper events (state flags, catch logging, toasts) add
no pipeline kinds: the projection of the whole trace is that of the try
body. -/
theorem ckindsHandleTranscription (env : TEnv) :
    ckinds (handleTranscription env) = ckinds (tryBody env).1 := by
  rcases hT : tryBody env with ⟨evs, r⟩
  rcases r with m | segs <;>
    simp [handleTranscription, hT, ckindsAppend, ckinds, ckind]

/-- Claim C5: every run of `handleTranscription` sets the
`isTranscribing` flag first and resets it last; on success the segments
view state is set to the returned segments and the success toast is
shown; on any failure the destructive toast carrying the error's message
is shown, the failure is logged, and no `setSegments` update happens. -/
theorem C5_transcription_outcome (env : TEnv) :
    (handleTranscription env).head? = some (TEvent.setIsTranscribing true) ∧
    (handleTranscription env).getLast? = some (TEvent.setIsTranscribing false) ∧
    (∀ segs, (tryBody env).2 = Except.ok segs →
       TEvent.setSegments segs ∈ handleTranscription env ∧
       TEvent.toastShown transcriptionDoneToast ∈ handleTranscription env) ∧
    (∀ m, (tryBody env).2 = Except.error m →
       TEvent.toastShown (transcriptionErrorToast m) ∈ handleTranscription env ∧
       TEvent.consoleError ("Erro na transcrição: " ++ m) ∈ handleTranscription env ∧
       ∀ x, TEvent.setSegments x ∉ handleTranscription env) := by
  rcases hT : tryBody env with ⟨evs, r⟩
  rcases r with m | segs
  · refine ⟨?_, ?_, ?_, ?_⟩
    · simp [handleTranscription, hT]
    · simp only [handleTranscription, hT]
      exact List.getLast?_concat _
    · intro segs hs
      simp at hs
    · intro m0 hm
      simp at hm
      subst hm
      refine ⟨?_, ?_, ?_⟩
      · simp [handleTranscription, hT]
      · simp [handleTranscription, hT]
      · intro x
        simp [handleTranscription, hT]
        exact tryBodyErrorNoSetSegments env evs m hT x
  · refine ⟨?_, ?_, ?_, ?_⟩
    · simp [handleTranscription, hT]
    · simp only [handleTranscription, hT]
      exact List.getLast?_concat _
    · intro segs0 hs
      simp at hs
      subst hs
      have hmem := tryBodyOkMem env evs segs hT
      constructor <;> simp [handleTranscription, hT, hmem.1, hmem.2]
    · intro m hm
      simp at hm

/-- Claim C5 witness: in the all-success environment the segments are
set and the success toast shown; with a failing upload the destructive
toast carries `'Failed to upload audio file'`. -/
theorem C5_transcription_outcome_witness :
    TEvent.setSegments [sampleSegment] ∈ handleTranscription happyTEnv ∧
    TEvent.toastShown (transcriptionErrorToast "Failed to upload audio file") ∈
      handleTranscription failTEnv :=
  ⟨((C5_transcription_outcome happyTEnv).2.2.1 [sampleSegment] (by decide)).1,
   ((C5_transcription_outcome failTEnv).2.2.2 "Failed to upload audio file"
      (by decide)).1⟩

/-- Claim C6: the pipeline-kind projection of any `handleTranscription`
trace is a prefix of upload → transcribe → upsert → analyze → update, and
the minutes upsert happens only when the transcribe step returned
non-empty segments and minutes are present. -/
theorem C6_pipeline_order (env : TEnv) :
    (∃ rest, ckinds (handleTranscription env) ++ rest = pipelineOrder) ∧
    (CKind.upsert ∈ ckinds (handleTranscription env) →
       env.minutes.isSome = true ∧
       ∃ segs, (transcribeStep env).2 = Except.ok segs ∧ segs ≠ []) := by
  rw [ckindsHandleTranscription]
  exact ⟨tryBodyCkinds env, tryBodyUpsertGuard env⟩

/-- Claim C6 witness: in the all-success environment the upsert does
occur, and indeed minutes are present and the google transcription
returned one non-empty segment list. -/
theorem C6_pipeline_order_witness :
    happyTEnv.minutes.isSome = true ∧
    ∃ segs, (transcribeStep happyTEnv).2 = Except.ok segs ∧ segs ≠ [] :=
  (C6_pipeline_order happyTEnv).2 (by decide)

/-- A `handleSubmit` run performs at most one storage upload and at most
one profile upsert. -/
theorem handleSubmitCallCounts (env : ProfileEnv) :
    ((handleSubmit env).filter isStorageUpload).length ≤ 1 ∧
    ((handleSubmit env).filter isProfilesUpsert).length ≤ 1 := by
  rcases hU : env.userId with _ | uid
  · simp [handleSubmit, hU]
  · rcases hA : env.avatar with _ | av <;>
      cases hUp : env.uploadFails <;> cases hUF : env.upsertFails <;>
      simp [handleSubmit, uploadAvatar, hU, hA, hUp, hUF, isStorageUpload,
            isProfilesUpsert, List.filter]

/-- A `setupAudioContext` run performs at most one `getUserMedia` and at
most one `getDisplayMedia` request. -/
theorem setupCallCounts (env : SetupEnv) (s : RCState) (w : RCWorld) :
    ((setupAudioContext env s w).2.2.filter isGetUserMedia).length ≤ 1 ∧
    ((setupAudioContext env s w).2.2.filter isGetDisplayMedia).length ≤ 1 := by
  unfold setupAudioContext
  cases hM : env.micOk <;> cases hS : env.systemAudioEnabled <;>
    cases hD : env.displayOk <;>
    simp [hM, hS, hD, isGetUserMedia, isGetDisplayMedia, List.filter]

/-- A `handleTranscription` run performs each pipeline call at most
once. -/
theorem handleTranscriptionCallCounts (env : TEnv) (k : CKind) :
    (ckinds (handleTranscription env)).count k ≤ 1 := by
  obtain ⟨rest, h⟩ := tryBodyCkinds env
  rw [ckindsHandleTranscription]
  have h2 : (ckinds (tryBody env).1).count k + rest.count k = pipelineOrder.count k := by
    rw [← List.count_append, h]
  have h3 : pipelineOrder.count k ≤ 1 := by cases k <;> decide
  omega

/-- Claim C1 counterexample: a failing audio-context setup (microphone
request denied) is caught and logged to the console, but no toast is
shown — the "log and surface a user-facing notification" pattern is not
uniform across external calls. -/
theorem C1_counterexample :
    REvent.consoleError "Erro ao configurar contexto de áudio" ∈
      (setupAudioContext micFailEnv initState initWorld).2.2 ∧
    (setupAudioContext micFailEnv initState initWorld).2.2.filter isRCToast = [] := by
  decide

/-- Claim C1 (amended): every external call is wrapped so that no
failure propagates out of its handler, and no call is retried (each call
occurs at most once per run); but the failure surface is not uniform:
transcription and profile-load failures are both logged and toasted,
avatar-upload and audio-context-setup failures are only logged to the
console (no toast), and profile-save failures are only toasted (no
console log). -/
theorem C1_amended_error_surface :
    (∀ env : ProfileEnv, ∀ uid av, env.avatar = some av → env.uploadFails = true →
       (uploadAvatar env uid).2 = none ∧
       (uploadAvatar env uid).1.filter isProfileConsoleError ≠ [] ∧
       (uploadAvatar env uid).1.filter isProfileToast = []) ∧
    (∀ env : LoadEnv, ∀ uid, env.userId = some uid → env.fetchFails = true →
       (loadProfile env).filter isProfileConsoleError ≠ [] ∧
       PEvent.toastShown ⟨"Erro ao carregar perfil", env.fetchErrMsg, true⟩ ∈
         loadProfile env) ∧
    (∀ env : ProfileEnv, ∀ uid, env.userId = some uid → env.avatar = none →
       env.upsertFails = true →
       PEvent.toastShown ⟨"Erro ao atualizar perfil", env.upsertErrMsg, true⟩ ∈
         handleSubmit env ∧
       (handleSubmit env).filter isProfileConsoleError = []) ∧
    (∀ env : SetupEnv, ∀ s w, env.micOk = false →
       REvent.consoleError "Erro ao configurar contexto de áudio" ∈
         (setupAudioContext env s w).2.2 ∧
       (setupAudioContext env s w).2.2.filter isRCToast = []) ∧
    (∀ env : TEnv, ∀ m, (tryBody env).2 = Except.error m →
       TEvent.consoleError ("Erro na transcrição: " ++ m) ∈ handleTranscription env ∧
       TEvent.toastShown (transcriptionErrorToast m) ∈ handleTranscription env) ∧
    (∀ env : TEnv, ∀ k, (ckinds (handleTranscription env)).count k ≤ 1) ∧
    (∀ env : ProfileEnv,
       ((handleSubmit env).filter isStorageUpload).length ≤ 1 ∧
       ((handleSubmit env).filter isProfilesUpsert).length ≤ 1) ∧
    (∀ env : SetupEnv, ∀ s w,
       ((setupAudioContext env s w).2.2.filter isGetUserMedia).length ≤ 1 ∧
       ((setupAudioContext env s w).2.2.filter isGetDisplayMedia).length ≤ 1) := by
  refine ⟨?_, ?_, ?_, ?_, ?_, ?_, handleSubmitCallCounts, setupCallCounts⟩
  · intro env uid av hA hUp
    simp [uploadAvatar, hA, hUp, isProfileConsoleError, isProfileToast, List.filter]
  · intro env uid hU hF
    simp [loadProfile, hU, hF, isProfileConsoleError, List.filter]
  · intro env uid hU hA hUF
    simp [handleSubmit, uploadAvatar, jsOrUndefined, hU, hA, hUF,
          isProfileConsoleError, List.filter]
  · intro env s w hM
    simp [setupAudioContext, hM, isRCToast, List.filter]
  · intro env m hm
    rcases hT : tryBody env with ⟨evs, r⟩
    rw [hT] at hm
    simp at hm
    subst hm
    constructor <;> simp [handleTranscription, hT]
  · intro env k
    exact handleTranscriptionCallCounts env k

/-- Claim C1 witness: at concrete failing environments — avatar upload
with no toast, profile load with its toast, profile save with its toast,
audio setup with no toast, transcription with its destructive toast. -/
theorem C1_amended_error_surface_witness :
    (uploadAvatar profileEnvAvatarFail "user-1").1.filter isProfileToast = [] ∧
    PEvent.toastShown ⟨"Erro ao carregar perfil", "boom", true⟩ ∈ loadProfile loadEnvFail ∧
    PEvent.toastShown ⟨"Erro ao atualizar perfil", "falhou", true⟩ ∈
      handleSubmit profileEnvUpsertFail ∧
    (setupAudioContext micFailEnv initState initWorld).2.2.filter isRCToast = [] ∧
    TEvent.toastShown (transcriptionErrorToast "Failed to upload audio file") ∈
      handleTranscription failTEnv := by
  refine ⟨?_, ?_, ?_, ?_, ?_⟩
  · exact (C1_amended_error_surface.1 profileEnvAvatarFail "user-1" ⟨"a.png"⟩ rfl rfl).2.2
  · exact (C1_amended_error_surface.2.1 loadEnvFail "user-1" rfl rfl).2
  · exact (C1_amended_error_surface.2.2.1 profileEnvUpsertFail "user-1" rfl rfl rfl).1
  · exact (C1_amended_error_surface.2.2.2.1 micFailEnv initState initWorld rfl).2
  · exact (C1_amended_error_surface.2.2.2.2.1 failTEnv "Failed to upload audio file"
      (by decide)).2

/-- Claim C7 witness: at a concrete logged-in environment with no avatar
chosen, exactly one upsert happens, and no write happens when logged
out. -/
theorem C7_profile_submit_witness :
    handleSubmit { profileEnv0 with userId := none } = [] ∧
    ((handleSubmit profileEnv0).filter isProfilesUpsert).length = 1 :=
  ⟨(C7_profile_submit { profileEnv0 with userId := none }).1 rfl,
   ((C7_profile_submit profileEnv0).2 "user-1" rfl).1⟩
